import Mathlib

/-!
# Verification of the media-automation scheduling / dispatch / analytics core

Shallow embedding of the core of the `media-automation` repository:

* `AnalyticsDataValidator.validate_metrics` and the per-platform sync step
  (`src/app/core/services/analytics_sync.py`),
* `AnalyticsSyncService._fetch_analytics_with_retry` (same file),
* `AnalyticsSyncService._save_analytics_record` (same file),
* `SocialMediaService.post_to_social_media` (`src/app/core/services/social_media.py`),
* `Scheduler.schedule_post`, `Scheduler.schedule_project_content` and the
  poller `process_due_scheduled_posts_async` (`src/app/core/scheduler.py`).

Python numbers are modelled as exact rationals, Python dicts of credentials as
association lists, database tables as lists of records, `datetime` values as
naturals, and network calls as outcome oracles passed in as parameters.
-/

namespace MediaAutomation

/-- The analytics payload handed to the validator and to the upsert:
the relevant keys of the Python metrics dict.  A key that is missing from the
Python dict behaves exactly like the value `0` (resp. `None` for `post_url`)
in every place the source reads it via `data.get(key, 0)`, so the structure
carries the defaulted values. -/
structure AnalyticsData where
  likes : ℚ
  shares : ℚ
  comments : ℚ
  reach : ℚ
  impressions : ℚ
  clicks : ℚ
  engagement_rate : ℚ
  click_through_rate : ℚ
  post_url : Option String
deriving Repr, DecidableEq

namespace AnalyticsData

/-- Number of negative metrics among likes/shares/comments/reach/impressions/clicks:
the Python validator's first loop subtracts `0.2` once for each of these. -/
def negCount (d : AnalyticsData) : ℕ :=
  [d.likes, d.shares, d.comments, d.reach, d.impressions, d.clicks].countP
    (fun x => decide (x < 0))

/-- `all(data.get(metric, 0) == 0 for metric in ['likes', 'shares', 'comments',
'reach', 'impressions'])` — note the source does not include `clicks` here. -/
def allZero (d : AnalyticsData) : Prop :=
  d.likes = 0 ∧ d.shares = 0 ∧ d.comments = 0 ∧ d.reach = 0 ∧ d.impressions = 0

instance (d : AnalyticsData) : Decidable d.allZero := by
  unfold allZero; infer_instance

end AnalyticsData

/-- The `quality_score` accumulator of `AnalyticsDataValidator.validate_metrics`
(`analytics_sync.py`, lines 28–61), step for step: start at `1.0`, subtract
the flagged penalties in source order, then `max(0.0, quality_score)`. -/
def quality_score (d : AnalyticsData) : ℚ :=
  let s1 : ℚ := 1 - 2/10 * (d.negCount : ℚ)
  let s2 : ℚ := if d.likes > d.reach ∧ d.reach > 0 then s1 - 3/10 else s1
  let s3 : ℚ := if d.comments > d.reach ∧ d.reach > 0 then s2 - 2/10 else s2
  let s4 : ℚ :=
    if d.engagement_rate > 100 then s3 - 4/10
    else if d.engagement_rate > 50 then s3 - 1/10
    else s3
  let s5 : ℚ := if d.allZero then s4 - 5/10 else s4
  max 0 s5

/-- `AnalyticsDataValidator.validate_metrics`
(`analytics_sync.py`, lines 24–64).  The returned pair is
`(is_valid, quality_score)` with `is_valid = quality_score > 0.5`; the
human-readable error string that the source returns as a third component is
not modelled. -/
def validate_metrics (d : AnalyticsData) : Bool × ℚ :=
  (decide (quality_score d > 1/2), quality_score d)

/-- The engagement-rate penalty tier taken by the validator. -/
def erPenalty (d : AnalyticsData) : ℚ :=
  if d.engagement_rate > 100 then 4/10
  else if d.engagement_rate > 50 then 1/10
  else 0

/-- Total penalty subtracted by `validate_metrics` before the clamp at `0`. -/
def totalPenalty (d : AnalyticsData) : ℚ :=
  2/10 * (d.negCount : ℚ)
    + (if d.likes > d.reach ∧ d.reach > 0 then 3/10 else 0)
    + (if d.comments > d.reach ∧ d.reach > 0 then 2/10 else 0)
    + erPenalty d
    + (if d.allZero then 5/10 else 0)

/-- The quality score as the spec's words describe it, amended with the
`reach > 0` guards that the source puts on the likes-exceed-reach and
comments-exceed-reach penalties: start at `1.0`, subtract each flagged
penalty, clamp to `[0, 1]`. -/
def specQualityScore (d : AnalyticsData) : ℚ :=
  min 1 (max 0 (1 -
    (2/10 * (d.negCount : ℚ)
      + (if d.likes > d.reach ∧ d.reach > 0 then 3/10 else 0)
      + (if d.comments > d.reach ∧ d.reach > 0 then 2/10 else 0)
      + (if d.engagement_rate > 100 then 4/10
         else if d.engagement_rate > 50 then 1/10 else 0)
      + (if d.allZero then 5/10 else 0))))

/-- The quality score exactly as claim C2 words it, without the source's
`reach > 0` guards on the likes/comments-exceed-reach penalties. -/
def claimQualityScore (d : AnalyticsData) : ℚ :=
  min 1 (max 0 (1 -
    (2/10 * (d.negCount : ℚ)
      + (if d.likes > d.reach then 3/10 else 0)
      + (if d.comments > d.reach then 2/10 else 0)
      + (if d.engagement_rate > 100 then 4/10
         else if d.engagement_rate > 50 then 1/10 else 0)
      + (if d.allZero then 5/10 else 0))))

/-- Spec scenario C: `{likes: 120, reach: 100, shares: 5, comments: 2,
impressions: 1000, clicks: 10}` (no engagement-rate key, so it defaults to 0). -/
def scenarioC : AnalyticsData :=
  { likes := 120, shares := 5, comments := 2, reach := 100, impressions := 1000,
    clicks := 10, engagement_rate := 0, click_through_rate := 0, post_url := none }

/-- Spec scenario D: all metrics zero. -/
def scenarioD : AnalyticsData :=
  { likes := 0, shares := 0, comments := 0, reach := 0, impressions := 0,
    clicks := 0, engagement_rate := 0, click_through_rate := 0, post_url := none }

/-- Metrics whose only anomaly is a negative reach: the claimed (unguarded)
scoring subtracts the negative-metric, likes-exceed-reach and
comments-exceed-reach penalties, the source only the first. -/
def negativeReachData : AnalyticsData :=
  { likes := 0, shares := 0, comments := 0, reach := -1, impressions := 0,
    clicks := 0, engagement_rate := 0, click_through_rate := 0, post_url := none }

/-- All-zero metrics except for a negative likes count: one more violation
than `scenarioD`, yet the all-zero penalty no longer fires. -/
def negativeLikesData : AnalyticsData :=
  { likes := -1, shares := 0, comments := 0, reach := 0, impressions := 0,
    clicks := 0, engagement_rate := 0, click_through_rate := 0, post_url := none }

/-! ## Dispatcher: `SocialMediaService.post_to_social_media`

`social_media.py`, lines 363–427.  Each `post_to_X` adapter method performs
network I/O inside a `try`/`except` that turns any raised exception into a
returned `None`; the outcome of the underlying posting attempt is therefore
modelled as an oracle `String → C → Except String PyResult` mapping the
resolved adapter name and that platform's credential bundle to either a
returned Python value or a raised exception (`C` is the credential-bundle
type; the text payload and media path of the one dispatch under analysis are
fixed inside the oracle). -/

/-- Python lowercasing (`str.lower()`) as used for platform names. -/
def pyLower (s : String) : String := ⟨s.data.map Char.toLower⟩

/-- Python `str.capitalize()`: first character upper-cased, rest lower-cased. -/
def pyCapitalize (s : String) : String :=
  match s.data with
  | [] => ⟨[]⟩
  | c :: cs => ⟨c.toUpper :: cs.map Char.toLower⟩

/-- Whether `pat` occurs as a contiguous run of `s` (Python's `pat in s`). -/
def isPrefixB : List Char → List Char → Bool
  | [], _ => true
  | _ :: _, [] => false
  | p :: ps, c :: cs => p == c && isPrefixB ps cs

/-- Auxiliary for `containsText`. -/
def isInfixB (pat : List Char) : List Char → Bool
  | [] => isPrefixB pat []
  | c :: cs => isPrefixB pat (c :: cs) || isInfixB pat cs

/-- `pat in s` on Python strings. -/
def containsText (s pat : String) : Bool := isInfixB pat.data s.data

/-- The shapes of value an adapter method can hand back to the dispatch loop:
Python `None`, a dict (of which the classifier reads the `success` flag, the
presence of an `id` key, and the `message` string), or a non-dict object such
as a tweepy response (of which the classifier only checks for a `data`
attribute). -/
inductive PyResult where
  | pyNone : PyResult
  | dict (success : Option Bool) (hasId : Bool) (message : Option String) : PyResult
  | obj (hasData : Bool) : PyResult
deriving Repr, DecidableEq

/-- The success classification of one adapter result
(`social_media.py`, lines 393–405). -/
def resultSuccess : PyResult → Bool
  | .pyNone => false
  | .dict success hasId message =>
      (success == some true) || hasId ||
        (match message with
         | some m => containsText m "Successfully posted"
         | none => false)
  | .obj hasData => hasData

/-- Each `post_to_X` method wraps its body in `try`/`except` and returns
`None` on any exception, so a raised exception reaches the dispatch loop as
the value `None`. -/
def runAdapter (call : Except String PyResult) : PyResult :=
  match call with
  | .ok r => r
  | .error _ => .pyNone

/-- The adapter-dispatch chain of `post_to_social_media` (lines 377–391):
case-insensitive on the platform name, `"x"` an alias for `"twitter"`,
unrecognised names fall through to `continue`. -/
def adapterFor (platform : String) : Option String :=
  let pl := pyLower platform
  if pl = "twitter" ∨ pl = "x" then some "twitter"
  else if pl = "instagram" then some "instagram"
  else if pl = "linkedin" then some "linkedin"
  else if pl = "facebook" then some "facebook"
  else if pl = "discord" then some "discord"
  else if pl = "telegram" then some "telegram"
  else none

/-- The loop of `post_to_social_media` (lines 376–410): iterate the
credentials map in order, skip unrecognised platforms, call the resolved
adapter, and append `platform.capitalize()` to the success or failure list
according to `resultSuccess`. -/
def classifyPlatforms {C : Type} (oracle : String → C → Except String PyResult) :
    List (String × C) → List String × List String
  | [] => ([], [])
  | (platform, creds) :: rest =>
    let r := classifyPlatforms oracle rest
    match adapterFor platform with
    | none => r
    | some a =>
      if resultSuccess (runAdapter (oracle a creds)) then
        (pyCapitalize platform :: r.1, r.2)
      else
        (r.1, pyCapitalize platform :: r.2)

/-- The dict returned by `post_to_social_media`: either the success/partial
shape with both platform lists, or the `status: failure` shape produced when
the dispatch body itself raises. -/
inductive DispatchResult where
  | ok (status message : String) (successful_platforms failed_platforms : List String) :
      DispatchResult
  | failure (error : String) : DispatchResult
deriving Repr, DecidableEq

/-- `results.get('successful_platforms', []) if results else []` as read by
the poller: the failure dict carries no platform lists. -/
def successfulPlatforms : DispatchResult → List String
  | .ok _ _ s _ => s
  | .failure _ => []

/-- `results.get('failed_platforms', [])`. -/
def failedPlatforms : DispatchResult → List String
  | .ok _ _ _ f => f
  | .failure _ => []

/-- The `status` key of the returned dict. -/
def dispatchStatus : DispatchResult → String
  | .ok status _ _ _ => status
  | .failure _ => "failure"

/-- Lines 411–424: `posted` when the failure list is empty (whether or not
anything succeeded), `partial` otherwise. -/
def dispatchOutcome {C : Type} (oracle : String → C → Except String PyResult)
    (credentials_map : List (String × C)) : DispatchResult :=
  let r := classifyPlatforms oracle credentials_map
  if r.2 = [] then
    .ok "posted" "Post published successfully!" r.1 r.2
  else
    .ok "partial" "Post published to some platforms, but failed for others." r.1 r.2

/-- `SocialMediaService.post_to_social_media` (lines 363–427).  `fileExists`
models `os.path.exists`; a Python-falsy `image_path` (None or the empty
string) is `none`.  A given-but-missing image path raises
`FileNotFoundError`, which the outer `except` turns into the failure dict. -/
def post_to_social_media {C : Type} (oracle : String → C → Except String PyResult)
    (fileExists : String → Bool) (image_path : Option String)
    (credentials_map : List (String × C)) : DispatchResult :=
  match image_path with
  | some p =>
    if fileExists p then dispatchOutcome oracle credentials_map
    else .failure ("Image not found at path: " ++ p)
  | none => dispatchOutcome oracle credentials_map

/-- Credentials-map for the C1 counterexample: an unrecognised platform key
plus two case-variant spellings of Twitter (distinct keys of one Python
dict).  Credential bundles are just tags `0, 1, 2` here. -/
def c1CredsMap : List (String × ℕ) := [("myspace", 0), ("twitter", 1), ("TWITTER", 2)]

/-- Oracle for the C1 counterexample: the call with credential bundle `1`
returns `{"success": True}`, every other call raises. -/
def c1Oracle : String → ℕ → Except String PyResult :=
  fun _ creds => if creds = 1 then .ok (.dict (some true) false none) else .error "API error"

/-- Oracle for spec scenario B: the Facebook call returns a response dict
containing an `id`, the Twitter call raises an exception. -/
def scenBOracle : String → ℕ → Except String PyResult :=
  fun a _ => if a = "facebook" then .ok (.dict none true none) else .error "boom"

/-- Credentials map for spec scenario B: both platforms configured. -/
def scenBCredsMap : List (String × ℕ) := [("facebook", 0), ("twitter", 1)]

/-! ## ScheduleStore and poller: `core/scheduler.py` -/

/-- A row of the `scheduled_posts` table (`models/scheduled_post.py`) with the
fields the scheduler core reads and writes.  `post_id`/`project_id` are the
two nullable foreign keys selecting the target. -/
structure ScheduledPost where
  id : ℕ
  post_id : Option ℕ
  project_id : Option ℕ
  platforms : String
  status : String
deriving Repr, DecidableEq

/-- The existence filter of `schedule_project_content` (scheduler.py, lines
129–134): same project and status in `("scheduled", "executing")`. -/
def isActiveForProject (projectId : ℕ) (r : ScheduledPost) : Bool :=
  decide (r.project_id = some projectId) &&
    (decide (r.status = "scheduled") || decide (r.status = "executing"))

/-- The analogous active-item filter for a post target; `Scheduler.schedule_post`
never evaluates it, which is what claim C3's counterexample exhibits. -/
def isActiveForPost (postId : ℕ) (r : ScheduledPost) : Bool :=
  decide (r.post_id = some postId) &&
    (decide (r.status = "scheduled") || decide (r.status = "executing"))

/-- The dict returned by a schedule call: its `status` key and the reported
row id. -/
structure ScheduleOutcome where
  status : String
  scheduled_post_id : Option ℕ
deriving Repr, DecidableEq

/-- `Scheduler.schedule_project_content` (scheduler.py, lines 117–162):
reject with `already_scheduled` when an active row for the project exists
(`db.scalar` returns the first match), otherwise insert a fresh row with
status `scheduled`.  `newId` stands for the id the database assigns to the
inserted row. -/
def schedule_project_content (projectId newId : ℕ) (platforms : String)
    (db : List ScheduledPost) : ScheduleOutcome × List ScheduledPost :=
  match db.find? (isActiveForProject projectId) with
  | some existing =>
    ({ status := "already_scheduled", scheduled_post_id := some existing.id }, db)
  | none =>
    ({ status := "scheduled", scheduled_post_id := some newId },
      db ++ [{ id := newId, post_id := none, project_id := some projectId,
               platforms := platforms, status := "scheduled" }])

/-- `Scheduler.schedule_post` (scheduler.py, lines 20–42): builds the row and
inserts it unconditionally — no existence check of any kind. -/
def schedule_post (postId newId : ℕ) (platforms : String)
    (db : List ScheduledPost) : ScheduleOutcome × List ScheduledPost :=
  ({ status := "success", scheduled_post_id := some newId },
    db ++ [{ id := newId, post_id := some postId, project_id := none,
             platforms := platforms, status := "scheduled" }])

/-- A store already holding an active (`scheduled`) item targeting post 7. -/
def activePostDb : List ScheduledPost :=
  [{ id := 1, post_id := some 7, project_id := none, platforms := "twitter",
     status := "scheduled" }]

/-- A store already holding an active (`scheduled`) item for project 5. -/
def activeProjectDb : List ScheduledPost :=
  [{ id := 1, post_id := none, project_id := some 5, platforms := "twitter",
     status := "scheduled" }]

/-- What the poller `process_due_scheduled_posts_async` does with one due row
(scheduler.py, lines 186–281): skip it if its status is no longer
`scheduled`, skip it if it is post-based (`"not supported in this mode"`),
process it if it references a project, and skip it if it has no target. -/
inductive PollAction where
  | skipNotScheduled : PollAction
  | skipPostBased : PollAction
  | processProject (projectId : ℕ) : PollAction
  | skipNoTarget : PollAction
deriving Repr, DecidableEq

/-- The branch structure of the poller body for one claimed row
(scheduler.py, lines 190–281): the `post_id` truthiness test comes first and
`continue`s, the `project_id` branch dispatches. -/
def pollItemAction (item : ScheduledPost) : PollAction :=
  if item.status ≠ "scheduled" then .skipNotScheduled
  else
    match item.post_id with
    | some _ => .skipPostBased
    | none =>
      match item.project_id with
      | some pid => .processProject pid
      | none => .skipNoTarget

/-- A due, post-based scheduled row. -/
def duePostItem : ScheduledPost :=
  { id := 3, post_id := some 7, project_id := none, platforms := "twitter",
    status := "scheduled" }

/-- The fields of a `ContentGeneration` row the poller reads: per-platform
generated text (the empty list models a Python-falsy `generated_text`) and
the image path (`none` models a Python-falsy `image_path`). -/
structure ContentGeneration where
  generated_text : List (String × String)
  image_path : Option String
deriving Repr, DecidableEq

/-- `text_payload = content_generation.generated_text if content_generation
and content_generation.generated_text else {"default": project.topic}`
(scheduler.py, line 213). -/
def resolveTextPayload (cg : Option ContentGeneration) (topic : String) :
    List (String × String) :=
  match cg with
  | some c => if c.generated_text ≠ [] then c.generated_text else [("default", topic)]
  | none => [("default", topic)]

/-- `image_path = content_generation.image_path if content_generation and
content_generation.image_path else None` (scheduler.py, line 214). -/
def resolveImagePath (cg : Option ContentGeneration) : Option String :=
  match cg with
  | some c => c.image_path
  | none => none

/-- Project-status derivation of the poller (scheduler.py, lines 224–231),
reading the dispatch result dict with `.get(..., [])` defaults. -/
def deriveProjectStatus (results : DispatchResult) : String :=
  if successfulPlatforms results ≠ [] ∧ failedPlatforms results ≠ [] then "Partial"
  else if successfulPlatforms results ≠ [] then "Posted"
  else "Failed"

/-! ## Analytics sync: retry loop and metrics upsert (`analytics_sync.py`) -/

/-- Outcome of one underlying platform-API call inside
`_fetch_analytics_with_retry`: data returned, a Python-falsy empty result,
or a raised exception. -/
inductive FetchOutcome where
  | fetched (d : AnalyticsData) : FetchOutcome
  | noData : FetchOutcome
  | raised (msg : String) : FetchOutcome
deriving Repr, DecidableEq

/-- Observable trace of `_fetch_analytics_with_retry`: the returned value,
the delays slept between attempts (in seconds), and the number of attempts
made. -/
structure RetryTrace where
  result : Option AnalyticsData
  sleeps : List ℚ
  attemptsMade : ℕ
deriving Repr, DecidableEq

/-- The `for attempt in range(max_retries)` loop of
`_fetch_analytics_with_retry` (analytics_sync.py, lines 169–191), over the
list of remaining 0-based attempt indices.  `call k` is the outcome of the
underlying platform-API call on attempt `k`; `jitter k` is the
`random.uniform(0, 1)` value drawn after a failed attempt `k`.  Data returns
immediately; a falsy result retries without sleeping; an exception returns
`None` on the last attempt and otherwise sleeps `2 ** attempt + jitter`. -/
def retryLoop (call : ℕ → FetchOutcome) (jitter : ℕ → ℚ) (maxRetries : ℕ) :
    List ℕ → RetryTrace
  | [] => { result := none, sleeps := [], attemptsMade := 0 }
  | attempt :: rest =>
    match call attempt with
    | .fetched d => { result := some d, sleeps := [], attemptsMade := 1 }
    | .noData =>
      let t := retryLoop call jitter maxRetries rest
      { result := t.result, sleeps := t.sleeps, attemptsMade := t.attemptsMade + 1 }
    | .raised _ =>
      if attempt = maxRetries - 1 then
        { result := none, sleeps := [], attemptsMade := 1 }
      else
        let t := retryLoop call jitter maxRetries rest
        { result := t.result,
          sleeps := ((2 : ℚ) ^ attempt + jitter attempt) :: t.sleeps,
          attemptsMade := t.attemptsMade + 1 }

/-- `_fetch_analytics_with_retry` at its default `max_retries = 3`. -/
def fetch_analytics_with_retry (call : ℕ → FetchOutcome) (jitter : ℕ → ℚ) : RetryTrace :=
  retryLoop call jitter 3 (List.range 3)

/-- An analytics fetch that fails transiently on every attempt. -/
def allRaiseCall : ℕ → FetchOutcome := fun _ => .raised "timeout"

/-- Zero jitter, for computing the deterministic part of the delays. -/
def zeroJitter : ℕ → ℚ := fun _ => 0

/-- A row of the `post_analytics` table (`models/analytics.py`) with the
fields `_save_analytics_record` reads and writes; timestamps are naturals. -/
structure PostAnalyticsRecord where
  post_id : Option ℕ
  project_id : ℕ
  platform : String
  post_url : Option String
  likes : ℚ
  shares : ℚ
  comments : ℚ
  reach : ℚ
  impressions : ℚ
  clicks : ℚ
  engagement_rate : ℚ
  click_through_rate : ℚ
  data_quality_score : ℚ
  is_anomaly : Bool
  last_verified : Option ℕ
  last_synced : Option ℕ
  created_at : ℕ
  updated_at : ℕ
deriving Repr, DecidableEq

/-- The upsert-key filter of `_save_analytics_record` (lines 328–333):
`project_id == project_id AND platform == platform`. -/
def matchesKey (projectId : ℕ) (platform : String) (r : PostAnalyticsRecord) : Bool :=
  decide (r.project_id = projectId) && decide (r.platform = platform)

/-- The in-place field updates applied to an existing record
(lines 336–349). -/
def updateRecord (d : AnalyticsData) (q : ℚ) (now : ℕ) (r : PostAnalyticsRecord) :
    PostAnalyticsRecord :=
  { r with
    likes := d.likes, shares := d.shares, comments := d.comments,
    reach := d.reach, impressions := d.impressions, clicks := d.clicks,
    engagement_rate := d.engagement_rate,
    click_through_rate := d.click_through_rate,
    post_url := d.post_url, data_quality_score := q,
    last_verified := some now, updated_at := now, last_synced := some now }

/-- The fresh record inserted when no row matches the key (lines 350–371). -/
def newRecord (projectId : ℕ) (platform : String) (d : AnalyticsData) (q : ℚ)
    (now : ℕ) : PostAnalyticsRecord :=
  { post_id := none, project_id := projectId, platform := platform,
    post_url := d.post_url, likes := d.likes, shares := d.shares,
    comments := d.comments, reach := d.reach, impressions := d.impressions,
    clicks := d.clicks, engagement_rate := d.engagement_rate,
    click_through_rate := d.click_through_rate, data_quality_score := q,
    is_anomaly := false, last_verified := some now, last_synced := some now,
    created_at := now, updated_at := now }

/-- Replace the first list element satisfying `p` (the row `db.scalar`
returns) by its updated version. -/
def updateFirst {α : Type} (p : α → Bool) (f : α → α) : List α → List α
  | [] => []
  | x :: xs => if p x then f x :: xs else x :: updateFirst p f xs

/-- `_save_analytics_record` (analytics_sync.py, lines 324–379) on a table
modelled as a list of rows: update the first row carrying the
(project, platform) key in place, or append a fresh row. -/
def save_analytics_record (projectId : ℕ) (platform : String) (d : AnalyticsData)
    (q : ℚ) (now : ℕ) (db : List PostAnalyticsRecord) : List PostAnalyticsRecord :=
  if db.any (matchesKey projectId platform) then
    updateFirst (matchesKey projectId platform) (updateRecord d q now) db
  else
    db ++ [newRecord projectId platform d q now]

/-- A record with its volatile sync timestamps cleared, for comparing the
persistent metric content of rows across saves. -/
def stripSyncTimes (r : PostAnalyticsRecord) : PostAnalyticsRecord :=
  { r with last_verified := none, last_synced := none, updated_at := 0 }

/-- The per-platform result status recorded by `sync_project_analytics`
(lines 133–150): `no_data` for a `None` fetch result, else `success` or
`low_quality` according to validation. -/
def syncPlatformStatus (fetched : Option AnalyticsData) : String :=
  match fetched with
  | none => "no_data"
  | some d => if (validate_metrics d).1 then "success" else "low_quality"

/-- The per-platform persistence decision of `sync_project_analytics`
(lines 133–150): nothing is written for a `None` fetch result or an invalid
record; a valid record is upserted with its quality score. -/
def syncPlatformDb (projectId : ℕ) (platform : String)
    (fetched : Option AnalyticsData) (now : ℕ) (db : List PostAnalyticsRecord) :
    List PostAnalyticsRecord :=
  match fetched with
  | none => db
  | some d =>
    if (validate_metrics d).1 then
      save_analytics_record projectId platform d (validate_metrics d).2 now db
    else db

lemma totalPenalty_nonneg (d : AnalyticsData) : 0 ≤ totalPenalty d := by
  unfold totalPenalty erPenalty
  have h : (0 : ℚ) ≤ 2/10 * (d.negCount : ℚ) := by positivity
  split_ifs <;> linarith

lemma quality_score_eq (d : AnalyticsData) :
    quality_score d = max 0 (1 - totalPenalty d) := by
  unfold quality_score totalPenalty erPenalty
  generalize ((d.negCount : ℚ)) = n
  split_ifs <;> ring_nf

lemma validate_metrics_snd (d : AnalyticsData) :
    (validate_metrics d).2 = quality_score d := rfl

lemma validate_metrics_valid_iff (d : AnalyticsData) :
    (validate_metrics d).1 = true ↔ (validate_metrics d).2 > 1/2 := by
  simp only [validate_metrics, decide_eq_true_eq]

lemma validate_metrics_invalid_iff (d : AnalyticsData) :
    (validate_metrics d).1 = false ↔ ¬ (validate_metrics d).2 > 1/2 := by
  simp only [validate_metrics, decide_eq_false_iff_not]

lemma specQualityScore_eq (d : AnalyticsData) :
    specQualityScore d = quality_score d := by
  rw [quality_score_eq]
  have h := totalPenalty_nonneg d
  unfold specQualityScore
  unfold totalPenalty erPenalty at h ⊢
  rw [min_eq_right (max_le (by norm_num) (by linarith))]

/-- C2 (counterexample): on metrics whose only anomaly is a negative reach,
the source scores `0.8` (a valid record), while the claim's unguarded
penalty list — which also subtracts `0.3` for likes exceeding reach and
`0.2` for comments exceeding reach even though the reach is not positive —
scores `0.3` (an invalid record). -/
theorem validate_metrics_unguarded_penalties_false :
    (validate_metrics negativeReachData).2 = 4/5
    ∧ claimQualityScore negativeReachData = 3/10
    ∧ (validate_metrics negativeReachData).1 = true
    ∧ ((4 : ℚ)/5 ≠ 3/10) := by
  refine ⟨?_, ?_, ?_, by norm_num⟩
  · norm_num [validate_metrics, quality_score, negativeReachData,
      AnalyticsData.negCount, AnalyticsData.allZero]
  · norm_num [claimQualityScore, negativeReachData,
      AnalyticsData.negCount, AnalyticsData.allZero]
  · norm_num [validate_metrics, quality_score, negativeReachData,
      AnalyticsData.negCount, AnalyticsData.allZero]

/-- C2 (amended): `validate_metrics` returns the quality score obtained by
starting at 1.0 and subtracting 0.2 for each negative metric among
likes/shares/comments/reach/impressions/clicks, 0.3 if likes exceed reach
and reach is positive, 0.2 if comments exceed reach and reach is positive,
0.4 if the engagement rate exceeds 100, 0.1 if it exceeds 50 but not 100,
and 0.5 if likes, shares, comments, reach and impressions are all zero,
clamped to `[0, 1]`; the record is valid iff the score exceeds 0.5.
Scenario C scores 0.7 and is valid; scenario D scores 0.5 and is invalid. -/
theorem validate_metrics_spec :
    (∀ d : AnalyticsData,
      (validate_metrics d).2 = specQualityScore d
      ∧ ((validate_metrics d).1 = true ↔ (validate_metrics d).2 > 1/2))
    ∧ (validate_metrics scenarioC).2 = 7/10
    ∧ (validate_metrics scenarioC).1 = true
    ∧ (validate_metrics scenarioD).2 = 1/2
    ∧ (validate_metrics scenarioD).1 = false := by
  refine ⟨fun d => ⟨(specQualityScore_eq d).symm, validate_metrics_valid_iff d⟩,
    ?_, ?_, ?_, ?_⟩ <;>
    norm_num [validate_metrics, quality_score, scenarioC, scenarioD,
      AnalyticsData.negCount, AnalyticsData.allZero]

/-- C4 (counterexample): quality scoring is not monotonic in violations.
All-zero metrics score `0.5` (invalid); making the likes count negative —
one additional violation — removes the all-zero penalty and raises the
score to `0.8`, flipping the record to valid. -/
theorem validate_metrics_not_monotone :
    (validate_metrics scenarioD).2 = 1/2
    ∧ (validate_metrics negativeLikesData).2 = 4/5
    ∧ (validate_metrics scenarioD).2 < (validate_metrics negativeLikesData).2
    ∧ (validate_metrics scenarioD).1 = false
    ∧ (validate_metrics negativeLikesData).1 = true := by
  refine ⟨?_, ?_, ?_, ?_, ?_⟩ <;>
    norm_num [validate_metrics, quality_score, scenarioD, negativeLikesData,
      AnalyticsData.negCount, AnalyticsData.allZero]

/-- C4 (amended): the quality score is antitone in the set of flagged
violations — if every violation flagged for `d1` is also flagged for `d2`
(at least as many negative metrics, each exceed-reach flag preserved, an
engagement-rate penalty tier at least as high, and the all-zero flag
preserved), then `d2` scores no higher than `d1`.  Moreover a record whose
core metrics (likes, shares, comments, reach, impressions) are all zero
always scores at most 0.5 and is marked invalid. -/
theorem quality_score_antitone_in_violations :
    (∀ d1 d2 : AnalyticsData,
      d1.negCount ≤ d2.negCount →
      ((d1.likes > d1.reach ∧ d1.reach > 0) → (d2.likes > d2.reach ∧ d2.reach > 0)) →
      ((d1.comments > d1.reach ∧ d1.reach > 0) → (d2.comments > d2.reach ∧ d2.reach > 0)) →
      erPenalty d1 ≤ erPenalty d2 →
      (d1.allZero → d2.allZero) →
      (validate_metrics d2).2 ≤ (validate_metrics d1).2)
    ∧ (∀ d : AnalyticsData, d.allZero →
        (validate_metrics d).2 ≤ 1/2 ∧ (validate_metrics d).1 = false) := by
  constructor
  · intro d1 d2 hneg hlikes hcomments her hzero
    have hcast : ((d1.negCount : ℚ)) ≤ (d2.negCount : ℚ) := by exact_mod_cast hneg
    have hA : (if d1.likes > d1.reach ∧ d1.reach > 0 then (3:ℚ)/10 else 0)
        ≤ (if d2.likes > d2.reach ∧ d2.reach > 0 then (3:ℚ)/10 else 0) := by
      split_ifs with h1 h2 <;> first | exact absurd (hlikes h1) h2 | norm_num
    have hB : (if d1.comments > d1.reach ∧ d1.reach > 0 then (2:ℚ)/10 else 0)
        ≤ (if d2.comments > d2.reach ∧ d2.reach > 0 then (2:ℚ)/10 else 0) := by
      split_ifs with h1 h2 <;> first | exact absurd (hcomments h1) h2 | norm_num
    have hC : (if d1.allZero then (5:ℚ)/10 else 0)
        ≤ (if d2.allZero then (5:ℚ)/10 else 0) := by
      split_ifs with h1 h2 <;> first | exact absurd (hzero h1) h2 | norm_num
    have hp : totalPenalty d1 ≤ totalPenalty d2 := by
      unfold totalPenalty
      linarith
    rw [validate_metrics_snd, validate_metrics_snd, quality_score_eq, quality_score_eq]
    exact max_le_max le_rfl (by linarith)
  · intro d hz
    have h0 : (0:ℚ) ≤ 2/10 * (d.negCount : ℚ) := by positivity
    have hA0 : (0:ℚ) ≤ (if d.likes > d.reach ∧ d.reach > 0 then (3:ℚ)/10 else 0) := by
      split_ifs <;> norm_num
    have hB0 : (0:ℚ) ≤ (if d.comments > d.reach ∧ d.reach > 0 then (2:ℚ)/10 else 0) := by
      split_ifs <;> norm_num
    have hE0 : (0:ℚ) ≤ erPenalty d := by
      unfold erPenalty; split_ifs <;> norm_num
    have hp : 5/10 ≤ totalPenalty d := by
      unfold totalPenalty
      rw [if_pos hz]
      linarith
    have hs : (validate_metrics d).2 ≤ 1/2 := by
      rw [validate_metrics_snd, quality_score_eq]
      exact max_le (by norm_num) (by linarith)
    exact ⟨hs, (validate_metrics_invalid_iff d).2 (by linarith)⟩

/-- Witness for `quality_score_antitone_in_violations` at concrete inputs:
scenario D compared with itself, and scenario D's all-zero invalidity. -/
theorem quality_score_antitone_in_violations_witness :
    (validate_metrics scenarioD).2 ≤ (validate_metrics scenarioD).2
    ∧ ((validate_metrics scenarioD).2 ≤ 1/2 ∧ (validate_metrics scenarioD).1 = false) :=
  ⟨quality_score_antitone_in_violations.1 scenarioD scenarioD le_rfl
      (fun h => h) (fun h => h) le_rfl (fun h => h),
    quality_score_antitone_in_violations.2 scenarioD
      (by norm_num [scenarioD, AnalyticsData.allZero])⟩

lemma mem_classify_iff {C : Type} (oracle : String → C → Except String PyResult)
    (x : String) (m : List (String × C)) :
    (x ∈ (classifyPlatforms oracle m).1 ∨ x ∈ (classifyPlatforms oracle m).2) ↔
      ∃ pc ∈ m, (adapterFor pc.1).isSome ∧ x = pyCapitalize pc.1 := by
  induction m with
  | nil => simp [classifyPlatforms]
  | cons hd tl ih =>
    obtain ⟨p, c⟩ := hd
    rw [List.exists_mem_cons_iff]
    rcases hA : adapterFor p with _ | a
    · have hskip : classifyPlatforms oracle ((p, c) :: tl) = classifyPlatforms oracle tl := by
        simp [classifyPlatforms, hA]
      rw [hskip, ih]
      simp
    · rcases hS : resultSuccess (runAdapter (oracle a c)) with _ | _
      · have hstep : classifyPlatforms oracle ((p, c) :: tl) =
            ((classifyPlatforms oracle tl).1,
              pyCapitalize p :: (classifyPlatforms oracle tl).2) := by
          simp [classifyPlatforms, hA, hS]
        rw [hstep]
        simp only [List.mem_cons, hA, Option.isSome_some, true_and]
        rw [← ih]
        tauto
      · have hstep : classifyPlatforms oracle ((p, c) :: tl) =
            (pyCapitalize p :: (classifyPlatforms oracle tl).1,
              (classifyPlatforms oracle tl).2) := by
          simp [classifyPlatforms, hA, hS]
        rw [hstep]
        simp only [List.mem_cons, hA, Option.isSome_some, true_and]
        rw [← ih]
        tauto

lemma classify_subset_caps {C : Type} (oracle : String → C → Except String PyResult)
    (x : String) (m : List (String × C)) :
    (x ∈ (classifyPlatforms oracle m).1 ∨ x ∈ (classifyPlatforms oracle m).2) →
      x ∈ m.map (fun pc => pyCapitalize pc.1) := by
  intro h
  obtain ⟨pc, hmem, _, hx⟩ := (mem_classify_iff oracle x m).1 h
  exact hx ▸ List.mem_map_of_mem _ hmem

lemma classify_disjoint {C : Type} (oracle : String → C → Except String PyResult)
    (m : List (String × C))
    (hdist : (m.map (fun pc => pyCapitalize pc.1)).Nodup) (x : String) :
    ¬ (x ∈ (classifyPlatforms oracle m).1 ∧ x ∈ (classifyPlatforms oracle m).2) := by
  induction m with
  | nil => simp [classifyPlatforms]
  | cons hd tl ih =>
    obtain ⟨p, c⟩ := hd
    rw [List.map_cons, List.nodup_cons] at hdist
    obtain ⟨hnotin, hdtl⟩ := hdist
    rintro ⟨h1, h2⟩
    rcases hA : adapterFor p with _ | a
    · have hskip : classifyPlatforms oracle ((p, c) :: tl) = classifyPlatforms oracle tl := by
        simp [classifyPlatforms, hA]
      rw [hskip] at h1 h2
      exact ih hdtl ⟨h1, h2⟩
    · rcases hS : resultSuccess (runAdapter (oracle a c)) with _ | _
      · have hstep : classifyPlatforms oracle ((p, c) :: tl) =
            ((classifyPlatforms oracle tl).1,
              pyCapitalize p :: (classifyPlatforms oracle tl).2) := by
          simp [classifyPlatforms, hA, hS]
        rw [hstep] at h1 h2
        rcases List.mem_cons.mp h2 with rfl | h2'
        · exact hnotin (classify_subset_caps oracle _ tl (Or.inl h1))
        · exact ih hdtl ⟨h1, h2'⟩
      · have hstep : classifyPlatforms oracle ((p, c) :: tl) =
            (pyCapitalize p :: (classifyPlatforms oracle tl).1,
              (classifyPlatforms oracle tl).2) := by
          simp [classifyPlatforms, hA, hS]
        rw [hstep] at h1 h2
        rcases List.mem_cons.mp h1 with rfl | h1'
        · exact hnotin (classify_subset_caps oracle _ tl (Or.inr h2))
        · exact ih hdtl ⟨h1', h2⟩

lemma dispatchOutcome_lists {C : Type} (oracle : String → C → Except String PyResult)
    (m : List (String × C)) :
    successfulPlatforms (dispatchOutcome oracle m) = (classifyPlatforms oracle m).1
    ∧ failedPlatforms (dispatchOutcome oracle m) = (classifyPlatforms oracle m).2 := by
  unfold dispatchOutcome
  dsimp only
  split_ifs <;> exact ⟨rfl, rfl⟩

lemma post_no_media_eq {C : Type} (oracle : String → C → Except String PyResult)
    (fileExists : String → Bool) (m : List (String × C)) :
    post_to_social_media oracle fileExists none m = dispatchOutcome oracle m := rfl

lemma classify_all_unknown {C : Type} (oracle : String → C → Except String PyResult)
    (m : List (String × C)) (h : ∀ pc ∈ m, adapterFor pc.1 = none) :
    classifyPlatforms oracle m = ([], []) := by
  induction m with
  | nil => rfl
  | cons hd tl ih =>
    obtain ⟨p, c⟩ := hd
    have hp := h (p, c) (List.mem_cons_self _ _)
    simp only [classifyPlatforms, hp]
    exact ih (fun pc hm => h pc (List.mem_cons_of_mem _ hm))

/-- C1 (counterexample): a credentials map with the unrecognised key
`"myspace"` and the two case-variant keys `"twitter"`/`"TWITTER"` (legal
distinct keys of one Python dict), with an oracle under which the first
Twitter call succeeds and the second raises, yields
`successful_platforms = failed_platforms = ["Twitter"]`: the two lists are
not disjoint, and their union omits the configured key `"myspace"`. -/
theorem dispatch_partition_false :
    successfulPlatforms (post_to_social_media c1Oracle (fun _ => true) none c1CredsMap)
        = ["Twitter"]
    ∧ failedPlatforms (post_to_social_media c1Oracle (fun _ => true) none c1CredsMap)
        = ["Twitter"]
    ∧ "Twitter" ∈ successfulPlatforms (post_to_social_media c1Oracle (fun _ => true) none c1CredsMap)
    ∧ "Twitter" ∈ failedPlatforms (post_to_social_media c1Oracle (fun _ => true) none c1CredsMap)
    ∧ (∀ x ∈ successfulPlatforms (post_to_social_media c1Oracle (fun _ => true) none c1CredsMap)
          ++ failedPlatforms (post_to_social_media c1Oracle (fun _ => true) none c1CredsMap),
        pyLower x ≠ "myspace")
    ∧ "myspace" ∈ c1CredsMap.map Prod.fst := by
  decide

/-- C1 (amended): when no two keys of the credentials map coincide after
`str.capitalize()` normalisation and the optional media path (if given)
exists, the returned `successful_platforms` and `failed_platforms` are
disjoint and their union is exactly the set of capitalisations of those map
keys that resolve to a known adapter (matched case-insensitively, with
`"x"` an alias for `"twitter"`); keys that resolve to no adapter, and
platforms absent from the map, appear in neither list. -/
theorem dispatch_partition {C : Type} (oracle : String → C → Except String PyResult)
    (fileExists : String → Bool) (image_path : Option String) (m : List (String × C))
    (hdist : (m.map (fun pc => pyCapitalize pc.1)).Nodup)
    (himg : image_path = none ∨ ∃ p, image_path = some p ∧ fileExists p = true) :
    (∀ x, ¬ (x ∈ successfulPlatforms (post_to_social_media oracle fileExists image_path m)
           ∧ x ∈ failedPlatforms (post_to_social_media oracle fileExists image_path m)))
    ∧ (∀ x, (x ∈ successfulPlatforms (post_to_social_media oracle fileExists image_path m)
           ∨ x ∈ failedPlatforms (post_to_social_media oracle fileExists image_path m)) ↔
        ∃ pc ∈ m, (adapterFor pc.1).isSome ∧ x = pyCapitalize pc.1) := by
  have hpost : post_to_social_media oracle fileExists image_path m = dispatchOutcome oracle m := by
    rcases himg with rfl | ⟨p, rfl, hfs⟩
    · rfl
    · unfold post_to_social_media
      simp [hfs]
  rw [hpost]
  obtain ⟨hs, hf⟩ := dispatchOutcome_lists oracle m
  rw [hs, hf]
  exact ⟨fun x => classify_disjoint oracle m hdist x, fun x => mem_classify_iff oracle x m⟩

/-- Witness for `dispatch_partition`: scenario B's credentials map (keys
`"facebook"`, `"twitter"`), whose capitalised keys are distinct, with no
media path. -/
theorem dispatch_partition_witness :
    (∀ x, ¬ (x ∈ successfulPlatforms (post_to_social_media scenBOracle (fun _ => true) none scenBCredsMap)
           ∧ x ∈ failedPlatforms (post_to_social_media scenBOracle (fun _ => true) none scenBCredsMap)))
    ∧ (∀ x, (x ∈ successfulPlatforms (post_to_social_media scenBOracle (fun _ => true) none scenBCredsMap)
           ∨ x ∈ failedPlatforms (post_to_social_media scenBOracle (fun _ => true) none scenBCredsMap)) ↔
        ∃ pc ∈ scenBCredsMap, (adapterFor pc.1).isSome ∧ x = pyCapitalize pc.1) :=
  dispatch_partition scenBOracle (fun _ => true) none scenBCredsMap (by decide) (Or.inl rfl)

/-- C6 (counterexample): in spec scenario B (Facebook call succeeds, the
Twitter call raises) the dispatcher's lists hold the `platform.capitalize()`
spellings `["Facebook"]` and `["Twitter"]` (social_media.py, lines 392, 408,
410), not the claim's literal `successful_platforms = ["facebook"]` and
`failed_platforms = ["twitter"]`. -/
theorem scenarioB_lists_not_lowercase :
    successfulPlatforms
        (post_to_social_media scenBOracle (fun _ => true) none scenBCredsMap) = ["Facebook"]
    ∧ failedPlatforms
        (post_to_social_media scenBOracle (fun _ => true) none scenBCredsMap) = ["Twitter"]
    ∧ successfulPlatforms
        (post_to_social_media scenBOracle (fun _ => true) none scenBCredsMap) ≠ ["facebook"]
    ∧ failedPlatforms
        (post_to_social_media scenBOracle (fun _ => true) none scenBCredsMap) ≠ ["twitter"] := by
  decide

/-- C6 (amended): adapter failures are insulated per platform, with the
lists carrying the capitalized platform names.  Classification distributes
over the credentials map element by element (so one platform's exception
never prevents the remaining platforms from being attempted); a platform
whose adapter call raises is classified as failed; and in spec scenario B
(Facebook returns a response with an id, the Twitter call raises) the
dispatcher returns `successful_platforms = ["Facebook"]`,
`failed_platforms = ["Twitter"]` with status `partial`. -/
theorem adapter_exception_isolated {C : Type} (oracle : String → C → Except String PyResult) :
    (∀ l₁ l₂ : List (String × C),
      classifyPlatforms oracle (l₁ ++ l₂) =
        ((classifyPlatforms oracle l₁).1 ++ (classifyPlatforms oracle l₂).1,
         (classifyPlatforms oracle l₁).2 ++ (classifyPlatforms oracle l₂).2))
    ∧ (∀ (p : String) (c : C) (a e : String),
        adapterFor p = some a → oracle a c = .error e →
        classifyPlatforms oracle [(p, c)] = ([], [pyCapitalize p]))
    ∧ post_to_social_media scenBOracle (fun _ => true) none scenBCredsMap =
        .ok "partial" "Post published to some platforms, but failed for others."
          ["Facebook"] ["Twitter"] := by
  refine ⟨?_, ?_, by decide⟩
  · intro l₁ l₂
    induction l₁ with
    | nil => simp [classifyPlatforms]
    | cons hd tl ih =>
      obtain ⟨p, c⟩ := hd
      simp only [List.cons_append, classifyPlatforms, List.append_eq]
      rw [ih]
      rcases hA : adapterFor p with _ | a
      · rfl
      · rcases hS : resultSuccess (runAdapter (oracle a c)) with _ | _ <;> simp [hS]
  · intro p c a e hA herr
    simp [classifyPlatforms, hA, herr, runAdapter, resultSuccess]

/-- Witness for `adapter_exception_isolated`: splitting scenario B's map
after its first entry, and the raising Twitter call of scenario B. -/
theorem adapter_exception_isolated_witness :
    classifyPlatforms scenBOracle ([("facebook", 0)] ++ [("twitter", 1)]) =
      ((classifyPlatforms scenBOracle [("facebook", 0)]).1
          ++ (classifyPlatforms scenBOracle [("twitter", 1)]).1,
        (classifyPlatforms scenBOracle [("facebook", 0)]).2
          ++ (classifyPlatforms scenBOracle [("twitter", 1)]).2)
    ∧ classifyPlatforms scenBOracle [("twitter", 1)] = ([], [pyCapitalize "twitter"]) :=
  ⟨(adapter_exception_isolated scenBOracle).1 [("facebook", 0)] [("twitter", 1)],
    (adapter_exception_isolated scenBOracle).2.1 "twitter" 1 "twitter" "boom"
      (by decide) rfl⟩

/-- C10: the dispatcher reports status `posted` with message
`Post published successfully!` exactly when `failed_platforms` is empty —
including for an empty credentials map or one whose keys resolve to no
adapter, where both lists come back empty — reports `partial` exactly when
at least one platform failed, never reports `failure` when the media check
passed, and reports `failure` when a media path is given but does not
exist. -/
theorem dispatch_status_semantics {C : Type} (oracle : String → C → Except String PyResult)
    (fileExists : String → Bool) (m : List (String × C)) :
    (dispatchStatus (post_to_social_media oracle fileExists none m) = "posted"
      ↔ failedPlatforms (post_to_social_media oracle fileExists none m) = [])
    ∧ (dispatchStatus (post_to_social_media oracle fileExists none m) = "partial"
      ↔ failedPlatforms (post_to_social_media oracle fileExists none m) ≠ [])
    ∧ dispatchStatus (post_to_social_media oracle fileExists none m) ≠ "failure"
    ∧ post_to_social_media oracle fileExists none ([] : List (String × C)) =
        .ok "posted" "Post published successfully!" [] []
    ∧ ((∀ pc ∈ m, adapterFor pc.1 = none) →
        post_to_social_media oracle fileExists none m =
          .ok "posted" "Post published successfully!" [] [])
    ∧ (∀ p, fileExists p = false →
        post_to_social_media oracle fileExists (some p) m =
          .failure ("Image not found at path: " ++ p)) := by
  rw [post_no_media_eq]
  refine ⟨?_, ?_, ?_, ?_, ?_, ?_⟩
  · unfold dispatchOutcome
    dsimp only
    split_ifs with h <;> simp [dispatchStatus, failedPlatforms, h]
  · unfold dispatchOutcome
    dsimp only
    split_ifs with h <;> simp [dispatchStatus, failedPlatforms, h]
  · unfold dispatchOutcome
    dsimp only
    split_ifs with h <;> simp [dispatchStatus]
  · rfl
  · intro h
    unfold dispatchOutcome
    rw [classify_all_unknown oracle m h]
    rfl
  · intro p hp
    unfold post_to_social_media
    simp [hp]

/-- Witness for `dispatch_status_semantics`: a map holding only the
unrecognised key `"myspace"` dispatches to status `posted` with both lists
empty, and a missing media path produces the failure dict. -/
theorem dispatch_status_semantics_witness :
    post_to_social_media c1Oracle (fun _ => true) none [("myspace", 0)] =
      .ok "posted" "Post published successfully!" [] []
    ∧ post_to_social_media c1Oracle (fun _ => false) (some "img.png") [("myspace", 0)] =
      .failure ("Image not found at path: " ++ "img.png") :=
  ⟨(dispatch_status_semantics c1Oracle (fun _ => true) [("myspace", 0)]).2.2.2.2.1 (by decide),
    (dispatch_status_semantics c1Oracle (fun _ => false) [("myspace", 0)]).2.2.2.2.2 "img.png" rfl⟩

/-- C3 (counterexample): the store already holds an active (`scheduled`)
item for post 7, yet `schedule_post` for the same post reports success and
inserts a second row, leaving two active items for that target. -/
theorem schedule_post_no_dedup :
    activePostDb.any (isActiveForPost 7) = true
    ∧ (schedule_post 7 2 "twitter" activePostDb).1.status = "success"
    ∧ (schedule_post 7 2 "twitter" activePostDb).1.status ≠ "already_scheduled"
    ∧ (schedule_post 7 2 "twitter" activePostDb).2.length = 2
    ∧ (schedule_post 7 2 "twitter" activePostDb).2.countP (isActiveForPost 7) = 2 := by
  decide

/-- C3 (amended): the at-most-one-active check holds for project targets
only: `schedule_project_content` rejects with `already_scheduled` and
inserts nothing when an active (`scheduled`/`executing`) item exists for the
project, and otherwise inserts exactly one new row with status `scheduled`;
`schedule_post` performs no such check for post targets. -/
theorem schedule_project_content_at_most_one_active
    (projectId newId : ℕ) (platforms : String) (db : List ScheduledPost) :
    ((∃ r ∈ db, isActiveForProject projectId r = true) →
      (schedule_project_content projectId newId platforms db).1.status = "already_scheduled"
      ∧ (schedule_project_content projectId newId platforms db).2 = db)
    ∧ ((∀ r ∈ db, isActiveForProject projectId r = false) →
      (schedule_project_content projectId newId platforms db).1.status = "scheduled"
      ∧ (schedule_project_content projectId newId platforms db).2 =
          db ++ [{ id := newId, post_id := none, project_id := some projectId,
                   platforms := platforms, status := "scheduled" }]) := by
  constructor
  · rintro ⟨r, hr, hp⟩
    have hsome : (db.find? (isActiveForProject projectId)).isSome := by
      rw [List.find?_isSome]
      exact ⟨r, hr, hp⟩
    obtain ⟨x, hx⟩ := Option.isSome_iff_exists.mp hsome
    simp [schedule_project_content, hx]
  · intro hall
    have hnone : db.find? (isActiveForProject projectId) = none :=
      List.find?_eq_none.mpr (fun x hx => by simp [hall x hx])
    simp [schedule_project_content, hnone]

/-- Witness for `schedule_project_content_at_most_one_active`: one store
with an active item for project 5 (rejected, unchanged) and the empty store
(inserted). -/
theorem schedule_project_content_at_most_one_active_witness :
    ((schedule_project_content 5 2 "twitter" activeProjectDb).1.status = "already_scheduled"
      ∧ (schedule_project_content 5 2 "twitter" activeProjectDb).2 = activeProjectDb)
    ∧ ((schedule_project_content 5 1 "twitter" []).1.status = "scheduled"
      ∧ (schedule_project_content 5 1 "twitter" []).2 =
          [] ++ [{ id := 1, post_id := none, project_id := some 5,
                   platforms := "twitter", status := "scheduled" }]) :=
  ⟨(schedule_project_content_at_most_one_active 5 2 "twitter" activeProjectDb).1
      (by decide),
    (schedule_project_content_at_most_one_active 5 1 "twitter" []).2
      (by decide)⟩

/-- C7: the derived project status is `Posted` exactly when some platform
succeeded and none failed, `Partial` exactly when both lists are non-empty,
and `Failed` exactly when no platform succeeded (in particular when zero
platforms were attempted, both lists being empty). -/
theorem derived_project_status (results : DispatchResult) :
    (deriveProjectStatus results = "Posted" ↔
      successfulPlatforms results ≠ [] ∧ failedPlatforms results = [])
    ∧ (deriveProjectStatus results = "Partial" ↔
      successfulPlatforms results ≠ [] ∧ failedPlatforms results ≠ [])
    ∧ (deriveProjectStatus results = "Failed" ↔ successfulPlatforms results = []) := by
  unfold deriveProjectStatus
  rcases hs : successfulPlatforms results with _ | ⟨a, s⟩ <;>
    rcases hf : failedPlatforms results with _ | ⟨b, f⟩ <;>
    simp

/-- C9 (counterexample): a due, post-based scheduled item is skipped by the
poller (`"not supported in this mode"`) rather than resolved and
dispatched. -/
theorem poller_skips_post_items :
    pollItemAction duePostItem = PollAction.skipPostBased
    ∧ ∀ pid, pollItemAction duePostItem ≠ PollAction.processProject pid :=
  ⟨by decide, fun pid h => by
    rw [show pollItemAction duePostItem = PollAction.skipPostBased from rfl] at h
    exact PollAction.noConfusion h⟩

/-- C9 (amended): for every due item the poller claims, if the item
references a project (and no post) it is processed — its project, content
payload and credentials are loaded and dispatched; a post-based item is
skipped without being processed, and an item whose status is no longer
`scheduled` is skipped. -/
theorem poller_target_resolution :
    (∀ (item : ScheduledPost) (pid : ℕ), item.status = "scheduled" →
      item.post_id = none → item.project_id = some pid →
      pollItemAction item = PollAction.processProject pid)
    ∧ (∀ (item : ScheduledPost) (pid : ℕ), item.status = "scheduled" →
      item.post_id = some pid → pollItemAction item = PollAction.skipPostBased)
    ∧ (∀ item : ScheduledPost, item.status ≠ "scheduled" →
      pollItemAction item = PollAction.skipNotScheduled) := by
  refine ⟨?_, ?_, ?_⟩
  · intro item pid h1 h2 h3
    simp [pollItemAction, h1, h2, h3]
  · intro item pid h1 h2
    simp [pollItemAction, h1, h2]
  · intro item h1
    simp [pollItemAction, h1]

/-- Witness for `poller_target_resolution` at concrete rows: a due
project-based item is processed, the due post-based item is skipped, and a
completed item is not re-claimed. -/
theorem poller_target_resolution_witness :
    pollItemAction { id := 4, post_id := none, project_id := some 5,
                     platforms := "twitter", status := "scheduled" } =
      PollAction.processProject 5
    ∧ pollItemAction duePostItem = PollAction.skipPostBased
    ∧ pollItemAction { id := 6, post_id := none, project_id := some 5,
                       platforms := "twitter", status := "completed" } =
      PollAction.skipNotScheduled :=
  ⟨poller_target_resolution.1 _ 5 rfl rfl rfl,
    poller_target_resolution.2.1 duePostItem 7 rfl rfl,
    poller_target_resolution.2.2 _ (by decide)⟩

/-- C5 (counterexample): for a fetch that raises on every attempt (jitter
drawn as 0), the delays slept before attempts 2 and 3 are `1` and `2`
seconds — `2 ** attempt` for 0-based attempt `k`, i.e. base 1 second — not
the claimed `2 * 2^1 = 4` and `2 * 2^2 = 8`; the fetch still returns no
data after 3 attempts. -/
theorem retry_delays_false :
    (fetch_analytics_with_retry allRaiseCall zeroJitter).result = none
    ∧ (fetch_analytics_with_retry allRaiseCall zeroJitter).attemptsMade = 3
    ∧ (fetch_analytics_with_retry allRaiseCall zeroJitter).sleeps = [1, 2]
    ∧ ((1 : ℚ) ≠ 2 * 2 ^ 1 + 0 ∧ (2 : ℚ) ≠ 2 * 2 ^ 2 + 0) := by
  have hrange : List.range 3 = [0, 1, 2] := rfl
  refine ⟨?_, ?_, ?_, by norm_num⟩ <;>
    simp [fetch_analytics_with_retry, hrange, retryLoop, allRaiseCall, zeroJitter]

/-- C5 (amended): `_fetch_analytics_with_retry` makes at most 3 attempts;
when every attempt raises transiently, the delay slept after failed attempt
`k` (1-based) is `2^(k-1) + jitter` — so `1 + jitter` and `2 + jitter`
before attempts 2 and 3 — and the fetch returns no data, upon which the
platform's sync result is `no_data` and no record is written.  A fetch that
returns data on the first attempt ends the retry loop immediately with one
attempt, whatever the data's validation outcome (validation failures are
never retried: an invalid record is merely not persisted). -/
theorem fetch_retry_spec :
    (∀ (call : ℕ → FetchOutcome) (jitter : ℕ → ℚ),
      (fetch_analytics_with_retry call jitter).attemptsMade ≤ 3)
    ∧ (∀ (call : ℕ → FetchOutcome) (jitter : ℕ → ℚ),
        (∀ k, ∃ m, call k = .raised m) →
        (fetch_analytics_with_retry call jitter).result = none
        ∧ (fetch_analytics_with_retry call jitter).sleeps =
            [1 + jitter 0, 2 + jitter 1])
    ∧ (∀ (call : ℕ → FetchOutcome) (jitter : ℕ → ℚ) (d : AnalyticsData),
        call 0 = .fetched d →
        fetch_analytics_with_retry call jitter =
          { result := some d, sleeps := [], attemptsMade := 1 })
    ∧ (∀ (projectId : ℕ) (platform : String) (now : ℕ)
        (db : List PostAnalyticsRecord),
        syncPlatformStatus none = "no_data"
        ∧ syncPlatformDb projectId platform none now db = db) := by
  have hrange : List.range 3 = [0, 1, 2] := rfl
  refine ⟨?_, ?_, ?_, ?_⟩
  · intro call jitter
    rcases h0 : call 0 with _ | _ | _ <;>
      rcases h1 : call 1 with _ | _ | _ <;>
        rcases h2 : call 2 with _ | _ | _ <;>
          simp [fetch_analytics_with_retry, hrange, retryLoop, h0, h1, h2]
  · intro call jitter h
    obtain ⟨m0, h0⟩ := h 0
    obtain ⟨m1, h1⟩ := h 1
    obtain ⟨m2, h2⟩ := h 2
    refine ⟨?_, ?_⟩ <;>
      simp [fetch_analytics_with_retry, hrange, retryLoop, h0, h1, h2]
  · intro call jitter d h0
    simp [fetch_analytics_with_retry, hrange, retryLoop, h0]
  · intro projectId platform now db
    exact ⟨rfl, rfl⟩

/-- Witness for `fetch_retry_spec`: the all-raising fetch with zero jitter,
a first-attempt success, and the `no_data` bookkeeping on a concrete
store. -/
theorem fetch_retry_spec_witness :
    (fetch_analytics_with_retry allRaiseCall zeroJitter).attemptsMade ≤ 3
    ∧ ((fetch_analytics_with_retry allRaiseCall zeroJitter).result = none
      ∧ (fetch_analytics_with_retry allRaiseCall zeroJitter).sleeps =
          [1 + zeroJitter 0, 2 + zeroJitter 1])
    ∧ fetch_analytics_with_retry (fun _ => .fetched scenarioD) zeroJitter =
        { result := some scenarioD, sleeps := [], attemptsMade := 1 }
    ∧ (syncPlatformStatus none = "no_data"
      ∧ syncPlatformDb 1 "twitter" none 0 [] = []) :=
  ⟨fetch_retry_spec.1 allRaiseCall zeroJitter,
    fetch_retry_spec.2.1 allRaiseCall zeroJitter (fun _ => ⟨"timeout", rfl⟩),
    fetch_retry_spec.2.2.1 (fun _ => .fetched scenarioD) zeroJitter scenarioD rfl,
    fetch_retry_spec.2.2.2 1 "twitter" 0 []⟩

lemma updateFirst_length {α : Type} (p : α → Bool) (f : α → α) (l : List α) :
    (updateFirst p f l).length = l.length := by
  induction l with
  | nil => rfl
  | cons x xs ih =>
    unfold updateFirst
    split_ifs <;> simp [ih]

lemma countP_updateFirst {α : Type} (p : α → Bool) (f : α → α)
    (hf : ∀ a, p a = true → p (f a) = true) (l : List α) :
    (updateFirst p f l).countP p = l.countP p := by
  induction l with
  | nil => rfl
  | cons x xs ih =>
    rcases hx : p x with _ | _
    · simp [updateFirst, hx, List.countP_cons, ih]
    · simp [updateFirst, hx, List.countP_cons, ih, hf x hx]

lemma updateRecord_key (projectId : ℕ) (platform : String) (d : AnalyticsData)
    (q : ℚ) (now : ℕ) (r : PostAnalyticsRecord) :
    matchesKey projectId platform (updateRecord d q now r) =
      matchesKey projectId platform r := by
  simp [matchesKey, updateRecord]

lemma newRecord_key (projectId : ℕ) (platform : String) (d : AnalyticsData)
    (q : ℚ) (now : ℕ) :
    matchesKey projectId platform (newRecord projectId platform d q now) = true := by
  simp [matchesKey, newRecord]

lemma updateFirst_append_not_any {α : Type} (p : α → Bool) (f : α → α)
    (l₁ l₂ : List α) (h : ∀ x ∈ l₁, p x = false) :
    updateFirst p f (l₁ ++ l₂) = l₁ ++ updateFirst p f l₂ := by
  induction l₁ with
  | nil => rfl
  | cons x xs ih =>
    have hx := h x (List.mem_cons_self _ _)
    simp only [List.cons_append, updateFirst, hx, Bool.false_eq_true, if_false,
      List.cons.injEq, true_and]
    exact ih (fun y hy => h y (List.mem_cons_of_mem _ hy))

lemma strip_update_update (d : AnalyticsData) (q : ℚ) (now1 now2 : ℕ)
    (r : PostAnalyticsRecord) :
    stripSyncTimes (updateRecord d q now2 (updateRecord d q now1 r)) =
      stripSyncTimes (updateRecord d q now1 r) := by
  simp [stripSyncTimes, updateRecord]

lemma strip_update_new (projectId : ℕ) (platform : String) (d : AnalyticsData)
    (q : ℚ) (now1 now2 : ℕ) :
    stripSyncTimes (updateRecord d q now2 (newRecord projectId platform d q now1)) =
      stripSyncTimes (newRecord projectId platform d q now1) := by
  simp [stripSyncTimes, updateRecord, newRecord]

lemma strip_updateFirst_twice (projectId : ℕ) (platform : String)
    (d : AnalyticsData) (q : ℚ) (now1 now2 : ℕ) (l : List PostAnalyticsRecord) :
    (updateFirst (matchesKey projectId platform) (updateRecord d q now2)
        (updateFirst (matchesKey projectId platform) (updateRecord d q now1) l)).map
      stripSyncTimes =
      (updateFirst (matchesKey projectId platform) (updateRecord d q now1) l).map
        stripSyncTimes := by
  induction l with
  | nil => rfl
  | cons x xs ih =>
    rcases hx : matchesKey projectId platform x with _ | _
    · simp only [updateFirst, hx, Bool.false_eq_true, if_false, List.map_cons]
      rw [ih]
    · have hp' : matchesKey projectId platform (updateRecord d q now1 x) = true := by
        rw [updateRecord_key]; exact hx
      simp only [updateFirst, hx, if_true, hp', List.map_cons]
      rw [strip_update_update]

lemma save_eq_update_of_any (projectId : ℕ) (platform : String) (d : AnalyticsData)
    (q : ℚ) (now : ℕ) (db : List PostAnalyticsRecord)
    (h : db.any (matchesKey projectId platform) = true) :
    save_analytics_record projectId platform d q now db =
      updateFirst (matchesKey projectId platform) (updateRecord d q now) db := by
  unfold save_analytics_record
  rw [if_pos h]

lemma save_eq_append_of_not_any (projectId : ℕ) (platform : String) (d : AnalyticsData)
    (q : ℚ) (now : ℕ) (db : List PostAnalyticsRecord)
    (h : ¬ db.any (matchesKey projectId platform) = true) :
    save_analytics_record projectId platform d q now db =
      db ++ [newRecord projectId platform d q now] := by
  unfold save_analytics_record
  rw [if_neg h]

/-- C8: the metrics upsert is idempotent and keyed by (project, platform).
Starting from a table with at most one row for the key, a save leaves
exactly one row for the key; a save onto a table that already has the key
changes no row count; and saving the same metrics twice in succession
leaves every persistent field of every row — everything except the
`last_synced`/`last_verified`/`updated_at` timestamps — unchanged by the
second save. -/
theorem save_analytics_record_idempotent (projectId : ℕ) (platform : String)
    (d : AnalyticsData) (q : ℚ) (now1 now2 : ℕ) (db : List PostAnalyticsRecord)
    (hkey : db.countP (matchesKey projectId platform) ≤ 1) :
    (save_analytics_record projectId platform d q now1 db).countP
        (matchesKey projectId platform) = 1
    ∧ (save_analytics_record projectId platform d q now2
          (save_analytics_record projectId platform d q now1 db)).countP
        (matchesKey projectId platform) = 1
    ∧ (db.any (matchesKey projectId platform) = true →
        (save_analytics_record projectId platform d q now1 db).length = db.length)
    ∧ (save_analytics_record projectId platform d q now2
          (save_analytics_record projectId platform d q now1 db)).length =
        (save_analytics_record projectId platform d q now1 db).length
    ∧ (save_analytics_record projectId platform d q now2
          (save_analytics_record projectId platform d q now1 db)).map stripSyncTimes =
        (save_analytics_record projectId platform d q now1 db).map stripSyncTimes := by
  have hpres : ∀ r, matchesKey projectId platform r = true →
      matchesKey projectId platform (updateRecord d q now1 r) = true := by
    intro r hr; rw [updateRecord_key]; exact hr
  by_cases hany : db.any (matchesKey projectId platform) = true
  · -- a row with the key exists: both saves update in place
    have hpos : 0 < db.countP (matchesKey projectId platform) := by
      rw [List.countP_pos_iff]
      obtain ⟨r, hr, hpr⟩ := List.any_eq_true.mp hany
      exact ⟨r, hr, hpr⟩
    have hone : db.countP (matchesKey projectId platform) = 1 := le_antisymm hkey hpos
    have hdb1 := save_eq_update_of_any projectId platform d q now1 db hany
    have hcnt1 : (save_analytics_record projectId platform d q now1 db).countP
        (matchesKey projectId platform) = 1 := by
      rw [hdb1, countP_updateFirst _ _ hpres, hone]
    have hany1 : (save_analytics_record projectId platform d q now1 db).any
        (matchesKey projectId platform) = true := by
      rw [List.any_eq_true]
      have hpos1 : 0 < (save_analytics_record projectId platform d q now1 db).countP
          (matchesKey projectId platform) := by
        rw [hcnt1]
        norm_num
      obtain ⟨r, hr, hpr⟩ := List.countP_pos_iff.mp hpos1
      exact ⟨r, hr, hpr⟩
    have hdb2 := save_eq_update_of_any projectId platform d q now2
      (save_analytics_record projectId platform d q now1 db) hany1
    refine ⟨hcnt1, ?_, ?_, ?_, ?_⟩
    · rw [hdb2, countP_updateFirst, hcnt1]
      intro r hr; rw [updateRecord_key]; exact hr
    · intro _
      rw [hdb1, updateFirst_length]
    · rw [hdb2, updateFirst_length]
    · rw [hdb2, hdb1, strip_updateFirst_twice]
  · -- no row with the key: the first save appends, the second updates it
    have hall : ∀ r ∈ db, matchesKey projectId platform r = false := by
      intro r hr
      rcases hb : matchesKey projectId platform r with _ | _
      · rfl
      · exact absurd (List.any_eq_true.mpr ⟨r, hr, hb⟩) hany
    have hdb1 := save_eq_append_of_not_any projectId platform d q now1 db hany
    have hcnt0 : db.countP (matchesKey projectId platform) = 0 := by
      rw [List.countP_eq_zero]
      intro r hr
      simp [hall r hr]
    have hcnt1 : (save_analytics_record projectId platform d q now1 db).countP
        (matchesKey projectId platform) = 1 := by
      rw [hdb1, List.countP_append, hcnt0, List.countP_cons]
      simp [newRecord_key]
    have hany1 : (save_analytics_record projectId platform d q now1 db).any
        (matchesKey projectId platform) = true := by
      rw [hdb1, List.any_eq_true]
      exact ⟨newRecord projectId platform d q now1, by simp, newRecord_key _ _ _ _ _⟩
    have hdb2 := save_eq_update_of_any projectId platform d q now2
      (save_analytics_record projectId platform d q now1 db) hany1
    refine ⟨hcnt1, ?_, ?_, ?_, ?_⟩
    · rw [hdb2, countP_updateFirst, hcnt1]
      intro r hr; rw [updateRecord_key]; exact hr
    · intro hc
      exact absurd hc hany
    · rw [hdb2, updateFirst_length]
    · rw [hdb2, hdb1, updateFirst_append_not_any _ _ _ _ hall]
      simp only [List.map_append, updateFirst, newRecord_key, if_true, List.map_cons]
      rw [strip_update_new]

/-- Witness for `save_analytics_record_idempotent`: double save on the
empty table. -/
theorem save_analytics_record_idempotent_witness :
    (save_analytics_record 1 "twitter" scenarioC (7/10) 5 []).countP
        (matchesKey 1 "twitter") = 1
    ∧ (save_analytics_record 1 "twitter" scenarioC (7/10) 9
          (save_analytics_record 1 "twitter" scenarioC (7/10) 5 [])).countP
        (matchesKey 1 "twitter") = 1
    ∧ (([] : List PostAnalyticsRecord).any (matchesKey 1 "twitter") = true →
        (save_analytics_record 1 "twitter" scenarioC (7/10) 5 []).length =
          ([] : List PostAnalyticsRecord).length)
    ∧ (save_analytics_record 1 "twitter" scenarioC (7/10) 9
          (save_analytics_record 1 "twitter" scenarioC (7/10) 5 [])).length =
        (save_analytics_record 1 "twitter" scenarioC (7/10) 5 []).length
    ∧ (save_analytics_record 1 "twitter" scenarioC (7/10) 9
          (save_analytics_record 1 "twitter" scenarioC (7/10) 5 [])).map stripSyncTimes =
        (save_analytics_record 1 "twitter" scenarioC (7/10) 5 []).map stripSyncTimes :=
  save_analytics_record_idempotent 1 "twitter" scenarioC (7/10) 5 9 []
    (by simp)

end MediaAutomation
